/-
Verification of the keyword table engine embedded in
src/app/item-sourcing/page.tsx: multi-criteria filtering, stable
sorting, infinite-scroll pagination, the inclusion-set toggle handlers
and the simulated dataset loads.

The definitions below are a shallow embedding of that file: JavaScript
strings become Lean String, JS numbers on keyword records become Nat
(the record fields are non-negative integers), Number.parseInt becomes
an Option Int (none models NaN), and the React state plus its
filter-and-sort effect become an explicit state machine (EngineState,
step, run).
-/
import Mathlib

namespace ItemSourcing

/-- Competition level enum of a keyword record (source: the closed union
type of Keyword.competitionLevel, the three Korean labels). -/
inductive CompetitionLevel
| low
| medium
| high
deriving DecidableEq

/-- Search type enum of a keyword record (source: Keyword.searchType,
shopping vs informational). -/
inductive SearchType
| shopping
| informational
deriving DecidableEq

/-- The string the source stores for a competition level. -/
def CompetitionLevel.str : CompetitionLevel → String
| .low => "낮음"
| .medium => "중간"
| .high => "높음"

/-- The string the source stores for a search type. -/
def SearchType.str : SearchType → String
| .shopping => "쇼핑성"
| .informational => "정보성"

/-- One row of the keyword table (source: interface Keyword). -/
structure Keyword where
  id : String
  name : String
  searchVolume : Nat
  productCount : Nat
  competitionLevel : CompetitionLevel
  trendData : List Nat
  isBrand : Bool
  searchType : SearchType
deriving DecidableEq

/-- The filter state variables of ItemSourcingPage, grouped into one
record (source: the useState declarations searchTerm,
searchVolumeFilter, minSearchVolume, maxSearchVolume, brandFilter,
searchTypeFilter, competitionFilter, genderFilter, ageFilter,
bestSellingMonthFilter, searchVolumeIncreaseFilter,
customSearchVolumeIncrease). -/
structure Criteria where
  searchTerm : String
  searchVolumeFilter : String
  minSearchVolume : String
  maxSearchVolume : String
  brandFilter : List String
  searchTypeFilter : List String
  competitionFilter : List String
  genderFilter : String
  ageFilter : List String
  bestSellingMonthFilter : String
  searchVolumeIncreaseFilter : String
  customSearchVolumeIncrease : String
deriving DecidableEq

/-- The initial values of the filter state variables (also the values
restored by resetFilters). -/
def initCriteria : Criteria :=
  { searchTerm := ""
    searchVolumeFilter := ""
    minSearchVolume := ""
    maxSearchVolume := ""
    brandFilter := ["all"]
    searchTypeFilter := ["all"]
    competitionFilter := ["all"]
    genderFilter := "all"
    ageFilter := []
    bestSellingMonthFilter := ""
    searchVolumeIncreaseFilter := ""
    customSearchVolumeIncrease := "" }

/-- JS s.includes(sub): sub occurs as a contiguous substring of s. -/
def jsIncludes (s sub : String) : Bool :=
  decide (List.IsInfix sub.data s.data)

/-- JS toLowerCase, character by character (the Korean characters in
the data are unaffected). -/
def toLowerStr (s : String) : String :=
  String.mk (s.data.map Char.toLower)

/-- JS String.prototype.trim: strip leading and trailing whitespace. -/
def jsTrim (s : String) : String :=
  String.mk (((s.data.dropWhile Char.isWhitespace).reverse.dropWhile Char.isWhitespace).reverse)

/-- Value of a digit list read in base 10. -/
def digitsVal (ds : List Char) : Nat :=
  ds.foldl (fun n c => n * 10 + (c.toNat - Char.toNat (Char.ofNat 48))) 0

/-- JS Number.parseInt(s, 10): skip leading whitespace, read an
optional sign and then leading decimal digits; none models the NaN
result when no digits are found. -/
def parseIntJS (s : String) : Option Int :=
  let cs := s.data.dropWhile (fun c => c.isWhitespace)
  match cs with
  | List.cons c rest =>
    if c = Char.ofNat 45 then
      let ds := rest.takeWhile (fun x => x.isDigit)
      if ds.isEmpty then none else some (-(digitsVal ds : Int))
    else if c = Char.ofNat 43 then
      let ds := rest.takeWhile (fun x => x.isDigit)
      if ds.isEmpty then none else some (digitsVal ds : Int)
    else
      let ds := cs.takeWhile (fun x => x.isDigit)
      if ds.isEmpty then none else some (digitsVal ds : Int)
  | List.nil => none

/-- JS comparison n >= parseInt(s); comparison with NaN is false. -/
def natGeJs (n : Nat) : Option Int → Bool
| none => false
| some m => decide ((n : Int) ≥ m)

/-- JS comparison n <= parseInt(s); comparison with NaN is false. -/
def natLeJs (n : Nat) : Option Int → Bool
| none => false
| some m => decide ((n : Int) ≤ m)

/-- Search-term stage of the filter-and-sort effect: when searchTerm is
truthy (non-empty), keep keywords whose lower-cased name contains the
lower-cased term. -/
def textStage (c : Criteria) (l : List Keyword) : List Keyword :=
  if c.searchTerm ≠ "" then
    l.filter (fun k => jsIncludes (toLowerStr k.name) (toLowerStr c.searchTerm))
  else l

/-- Search-volume stage: a preset threshold filters volume >= threshold;
custom mode applies the min bound when minSearchVolume is truthy and the
max bound when maxSearchVolume is truthy. -/
def volumeStage (c : Criteria) (l : List Keyword) : List Keyword :=
  if c.searchVolumeFilter ≠ "" then
    if c.searchVolumeFilter = "custom" then
      let afterMin :=
        if c.minSearchVolume ≠ "" then
          l.filter (fun k => natGeJs k.searchVolume (parseIntJS c.minSearchVolume))
        else l
      if c.maxSearchVolume ≠ "" then
        afterMin.filter (fun k => natLeJs k.searchVolume (parseIntJS c.maxSearchVolume))
      else afterMin
    else
      l.filter (fun k => natGeJs k.searchVolume (parseIntJS c.searchVolumeFilter))
  else l

/-- Brand stage: active when the inclusion set lacks "all"; exactly one
of brand and non-brand selected filters that side, both selected is no
constraint. -/
def brandStage (c : Criteria) (l : List Keyword) : List Keyword :=
  if c.brandFilter.contains "all" then l
  else
    let includeBrand := c.brandFilter.contains "brand"
    let includeNonBrand := c.brandFilter.contains "non-brand"
    if includeBrand && !includeNonBrand then l.filter (fun k => k.isBrand)
    else if !includeBrand && includeNonBrand then l.filter (fun k => !k.isBrand)
    else l

/-- Search-type stage: active when the inclusion set lacks "all"; keeps
keywords whose search-type string is a member of the set. -/
def searchTypeStage (c : Criteria) (l : List Keyword) : List Keyword :=
  if c.searchTypeFilter.contains "all" then l
  else l.filter (fun k => c.searchTypeFilter.contains k.searchType.str)

/-- Competition stage: active when the inclusion set lacks "all". -/
def competitionStage (c : Criteria) (l : List Keyword) : List Keyword :=
  if c.competitionFilter.contains "all" then l
  else l.filter (fun k => c.competitionFilter.contains k.competitionLevel.str)

/-- Gender stage: the source branch body is empty (mock
implementation), so both branches leave the list unchanged. -/
def genderStage (c : Criteria) (l : List Keyword) : List Keyword :=
  if c.genderFilter ≠ "all" then l else l

/-- Age stage: the source branch body is empty (mock implementation). -/
def ageStage (c : Criteria) (l : List Keyword) : List Keyword :=
  if 0 < c.ageFilter.length then l else l

/-- Best-selling-month stage: the source branch body is empty (mock
implementation). -/
def monthStage (c : Criteria) (l : List Keyword) : List Keyword :=
  if c.bestSellingMonthFilter ≠ "" then l else l

/-- Search-volume-increase stage: the source branch body is empty (mock
implementation). -/
def increaseStage (c : Criteria) (l : List Keyword) : List Keyword :=
  if c.searchVolumeIncreaseFilter ≠ "" then l else l

/-- The filter portion of the filter-and-sort effect: the nine stages
applied in source order to a copy of the dataset. -/
def applyFilters (c : Criteria) (ks : List Keyword) : List Keyword :=
  increaseStage c (monthStage c (ageStage c (genderStage c
    (competitionStage c (searchTypeStage c (brandStage c
      (volumeStage c (textStage c ks))))))))

/-- Predicate of the search-term stage on one keyword. -/
def textPred (c : Criteria) (k : Keyword) : Bool :=
  if c.searchTerm ≠ "" then
    jsIncludes (toLowerStr k.name) (toLowerStr c.searchTerm)
  else true

/-- Predicate of the search-volume stage on one keyword. -/
def volumePred (c : Criteria) (k : Keyword) : Bool :=
  if c.searchVolumeFilter ≠ "" then
    if c.searchVolumeFilter = "custom" then
      (if c.minSearchVolume ≠ "" then natGeJs k.searchVolume (parseIntJS c.minSearchVolume) else true)
        && (if c.maxSearchVolume ≠ "" then natLeJs k.searchVolume (parseIntJS c.maxSearchVolume) else true)
    else natGeJs k.searchVolume (parseIntJS c.searchVolumeFilter)
  else true

/-- Predicate of the brand stage on one keyword. -/
def brandPred (c : Criteria) (k : Keyword) : Bool :=
  if c.brandFilter.contains "all" then true
  else if c.brandFilter.contains "brand" && !(c.brandFilter.contains "non-brand") then k.isBrand
  else if !(c.brandFilter.contains "brand") && c.brandFilter.contains "non-brand" then !k.isBrand
  else true

/-- Predicate of the search-type stage on one keyword. -/
def searchTypePred (c : Criteria) (k : Keyword) : Bool :=
  if c.searchTypeFilter.contains "all" then true
  else c.searchTypeFilter.contains k.searchType.str

/-- Predicate of the competition stage on one keyword. -/
def competitionPred (c : Criteria) (k : Keyword) : Bool :=
  if c.competitionFilter.contains "all" then true
  else c.competitionFilter.contains k.competitionLevel.str

/-- Conjunction of the five active filter predicates; the four mock
stages impose no constraint. -/
def matchesCriteria (c : Criteria) (k : Keyword) : Bool :=
  textPred c k && volumePred c k && brandPred c k
    && searchTypePred c k && competitionPred c k

/-- The sortable column identifiers (columns whose configuration sets
sortable to true: name, searchVolume, productCount, competitionLevel,
avgPrice, gender, isBrand, searchType). -/
inductive SortKey
| name
| searchVolume
| productCount
| competitionLevel
| avgPrice
| gender
| isBrand
| searchType
deriving DecidableEq

/-- Sort direction of the sortConfig state. -/
inductive SortDir
| asc
| desc
deriving DecidableEq

/-- The sortConfig state value: active key and direction. -/
structure SortSpec where
  key : SortKey
  direction : SortDir
deriving DecidableEq

/-- Values a JS property access a[sortConfig.key] can produce on a
keyword record: a number, a string, a boolean, or undefined for the
avgPrice and gender columns, which have no backing record field. -/
inductive JsVal
| num (n : Nat)
| str (s : String)
| boolean (b : Bool)
| undef
deriving DecidableEq

/-- The record field the comparator reads for a sort key; avgPrice and
gender are rendered from fresh random data and have no field, so the
access yields undefined. -/
def keyVal : SortKey → Keyword → JsVal
| .name, k => .str k.name
| .searchVolume, k => .num k.searchVolume
| .productCount, k => .num k.productCount
| .competitionLevel, k => .str k.competitionLevel.str
| .avgPrice, _ => .undef
| .gender, _ => .undef
| .isBrand, k => .boolean k.isBrand
| .searchType, k => .str k.searchType.str

/-- JS relational a < b on the values that arise here: numbers compare
numerically, strings lexicographically, booleans as 0 and 1, and any
comparison against undefined is false (NaN semantics). -/
def jlt : JsVal → JsVal → Bool
| .num a, .num b => decide (a < b)
| .str a, .str b => decide (a < b)
| .boolean a, .boolean b => !a && b
| _, _ => false

/-- The comparator passed to result.sort in the filter-and-sort effect:
-1 and 1 swap roles when the direction is descending, ties return 0. -/
def jsCompare (spec : SortSpec) (a b : Keyword) : Int :=
  if jlt (keyVal spec.key a) (keyVal spec.key b) then
    match spec.direction with
    | .asc => -1
    | .desc => 1
  else if jlt (keyVal spec.key b) (keyVal spec.key a) then
    match spec.direction with
    | .asc => 1
    | .desc => -1
  else 0

/-- Keep-before relation induced by the comparator: a may stay before b
exactly when the comparator does not order b strictly first. -/
def leFn (spec : SortSpec) (a b : Keyword) : Bool :=
  decide (jsCompare spec a b ≤ 0)

/-- The sort portion of the filter-and-sort effect: JS
Array.prototype.sort is a stable sort ordered by the comparator
(stability is required by the ECMAScript specification), embedded as a
stable merge sort; a null sortConfig leaves the list unsorted. -/
def sortApply (records : List Keyword) (cfg : Option SortSpec) : List Keyword :=
  match cfg with
  | none => records
  | some spec => records.mergeSort (leFn spec)

/-- The complete filter-and-sort effect body: filter stages in source
order, then the sort. -/
def computeView (ks : List Keyword) (c : Criteria) (cfg : Option SortSpec) : List Keyword :=
  sortApply (applyFilters c ks) cfg

/-- The handleSort callback: clicking the active key flips the
direction, clicking another key sorts descending by it. -/
def handleSort (cfg : Option SortSpec) (k : SortKey) : Option SortSpec :=
  match cfg with
  | some prev =>
    if prev.key = k then
      some { key := k
             direction := match prev.direction with | .asc => .desc | .desc => .asc }
    else some { key := k, direction := .desc }
  | none => some { key := k, direction := .desc }

/-- The shared body of handleBrandFilterChange,
handleSearchTypeFilterChange and handleCompetitionFilterChange:
toggling "all" clears the set to the sentinel, toggling a specific
value adds or removes it while dropping the sentinel, and an emptied
set reverts to the sentinel. -/
def toggleFilterValue (s : List String) (v : String) : List String :=
  if v = "all" then ["all"]
  else
    let newFilter :=
      if s.contains v then s.filter (fun item => item != v)
      else s.filter (fun item => item != "all") ++ [v]
    if newFilter.isEmpty then ["all"] else newFilter

/-- The guarded visible-count update of the infinite-scroll handler:
only when visible-count is short of the filtered total does the pending
timeout raise it by 20, clamped to the total. -/
def loadMoreCount (vc total : Nat) : Nat :=
  if vc < total then min (vc + 20) total else vc

/-- The visible slice rendered by the table body:
filteredKeywords.slice(0, visibleKeywords). -/
def visibleSlice (view : List Keyword) (vc : Nat) : List Keyword :=
  view.take vc

/-- The engine-relevant component state of ItemSourcingPage. -/
structure EngineState where
  keywords : List Keyword
  filteredKeywords : List Keyword
  criteria : Criteria
  sortConfig : Option SortSpec
  visibleKeywords : Nat

/-- The mount state: empty dataset, default filters, default sort
descending by search volume, visible-count 30. -/
def initState : EngineState :=
  { keywords := []
    filteredKeywords := []
    criteria := initCriteria
    sortConfig := some { key := .searchVolume, direction := .desc }
    visibleKeywords := 30 }

/-- The discrete user and timer events the component reacts to. -/
inductive Event
| setSearchTerm (s : String)
| setSearchVolumeFilter (s : String)
| setMinSearchVolume (s : String)
| setMaxSearchVolume (s : String)
| brandToggle (v : String)
| searchTypeToggle (v : String)
| competitionToggle (v : String)
| setGenderFilter (s : String)
| ageToggle (v : String)
| setBestSellingMonthFilter (s : String)
| setSearchVolumeIncreaseFilter (s : String)
| setCustomSearchVolumeIncrease (s : String)
| sortBy (k : SortKey)
| resetFiltersEv
| loadComplete (d : List Keyword)
| scrollLoadMore

/-- Rerun of the filter-and-sort effect after a state change: the
derived filteredKeywords is recomputed from the full dataset. -/
def recompute (st : EngineState) : EngineState :=
  { st with filteredKeywords := computeView st.keywords st.criteria st.sortConfig }

/-- One event step of the component: the state setter runs, then the
filter-and-sort effect recomputes the derived view (visibleKeywords is
read-modified only by the scroll handler, and the age handler toggles
membership like the source handleAgeFilterChange). -/
def step (st : EngineState) (e : Event) : EngineState :=
  match e with
  | .setSearchTerm s => recompute { st with criteria := { st.criteria with searchTerm := s } }
  | .setSearchVolumeFilter s => recompute { st with criteria := { st.criteria with searchVolumeFilter := s } }
  | .setMinSearchVolume s => recompute { st with criteria := { st.criteria with minSearchVolume := s } }
  | .setMaxSearchVolume s => recompute { st with criteria := { st.criteria with maxSearchVolume := s } }
  | .brandToggle v => recompute { st with criteria := { st.criteria with brandFilter := toggleFilterValue st.criteria.brandFilter v } }
  | .searchTypeToggle v => recompute { st with criteria := { st.criteria with searchTypeFilter := toggleFilterValue st.criteria.searchTypeFilter v } }
  | .competitionToggle v => recompute { st with criteria := { st.criteria with competitionFilter := toggleFilterValue st.criteria.competitionFilter v } }
  | .setGenderFilter s => recompute { st with criteria := { st.criteria with genderFilter := s } }
  | .ageToggle v => recompute { st with criteria := { st.criteria with ageFilter := if st.criteria.ageFilter.contains v then st.criteria.ageFilter.filter (fun item => item != v) else st.criteria.ageFilter ++ [v] } }
  | .setBestSellingMonthFilter s => recompute { st with criteria := { st.criteria with bestSellingMonthFilter := s } }
  | .setSearchVolumeIncreaseFilter s => recompute { st with criteria := { st.criteria with searchVolumeIncreaseFilter := s } }
  | .setCustomSearchVolumeIncrease s => recompute { st with criteria := { st.criteria with customSearchVolumeIncrease := s } }
  | .sortBy k => recompute { st with sortConfig := handleSort st.sortConfig k }
  | .resetFiltersEv => recompute { st with criteria := initCriteria }
  | .loadComplete d => recompute { st with keywords := d }
  | .scrollLoadMore => { st with visibleKeywords := loadMoreCount st.visibleKeywords st.filteredKeywords.length }

/-- Reachable states: the mount state driven by a list of events. -/
def run (evs : List Event) : EngineState :=
  evs.foldl step initState

/-- Whether an event mutates the Filter Criteria Set or the Sort
Specification (rather than the dataset or the scroll position). -/
def isCriteriaOrSortEvent : Event → Bool
| .setSearchTerm _ => true
| .setSearchVolumeFilter _ => true
| .setMinSearchVolume _ => true
| .setMaxSearchVolume _ => true
| .brandToggle _ => true
| .searchTypeToggle _ => true
| .competitionToggle _ => true
| .setGenderFilter _ => true
| .ageToggle _ => true
| .setBestSellingMonthFilter _ => true
| .setSearchVolumeIncreaseFilter _ => true
| .setCustomSearchVolumeIncrease _ => true
| .sortBy _ => true
| .resetFiltersEv => true
| .loadComplete _ => false
| .scrollLoadMore => false

/-- A dataset load scheduled by the category onValueChange handler (or
the mount effect): setTimeout(..., 800) registered at a given time, and
the dataset its callback will install. -/
structure PendingLoad where
  scheduledAt : Nat
  dataset : List Keyword

/-- Expiry time of the load timer: the source delay is the constant
800. -/
def fireTime (l : PendingLoad) : Nat :=
  l.scheduledAt + 800

/-- The JS event loop runs pending timers in expiry order, ties in
registration order (a stable order, embedded as a stable merge sort);
each callback installs its dataset wholesale via the loadComplete
step. -/
def runTimers (st : EngineState) (loads : List PendingLoad) : EngineState :=
  (loads.mergeSort (fun a b => decide (fireTime a ≤ fireTime b))).foldl
    (fun s l => step s (.loadComplete l.dataset)) st

theorem filter_pred_id (l : List Keyword) (p : Keyword → Bool)
    (h : ∀ a, p a = true) : List.filter p l = l :=
  List.filter_eq_self.mpr (fun a _ => h a)

theorem textStage_eq (c : Criteria) (l : List Keyword) :
    textStage c l = l.filter (textPred c) := by
  by_cases h : c.searchTerm = ""
  · simp only [textStage, h, ne_eq, not_true_eq_false, if_false]
    exact (filter_pred_id l _ (fun a => by simp [textPred, h])).symm
  · simp only [textStage, h, ne_eq, not_false_eq_true, if_true]
    exact List.filter_congr (fun a _ => by simp [textPred, h])

theorem volumeStage_eq (c : Criteria) (l : List Keyword) :
    volumeStage c l = l.filter (volumePred c) := by
  by_cases h0 : c.searchVolumeFilter = ""
  · simp only [volumeStage, h0, ne_eq, not_true_eq_false, if_false]
    exact (filter_pred_id l _ (fun a => by simp [volumePred, h0])).symm
  by_cases h1 : c.searchVolumeFilter = "custom"
  · by_cases h2 : c.minSearchVolume = "" <;> by_cases h3 : c.maxSearchVolume = "" <;>
      · simp only [volumeStage, h0, h1, h2, h3, ne_eq, not_true_eq_false, not_false_eq_true,
          if_true, if_false, List.filter_filter]
        first
        | exact (filter_pred_id l _ (fun a => by simp [volumePred, h0, h1, h2, h3])).symm
        | exact List.filter_congr (fun a _ => by
            simp [volumePred, h0, h1, h2, h3, Bool.and_comm])
  · simp only [volumeStage, h0, h1, ne_eq, not_false_eq_true, if_true, if_false]
    exact List.filter_congr (fun a _ => by simp [volumePred, h0, h1])

theorem brandStage_eq (c : Criteria) (l : List Keyword) :
    brandStage c l = l.filter (brandPred c) := by
  by_cases h0 : "all" ∈ c.brandFilter
  · simp only [brandStage, List.elem_eq_mem, h0, decide_True, if_true]
    exact (filter_pred_id l _ (fun a => by simp [brandPred, h0])).symm
  · by_cases hb : "brand" ∈ c.brandFilter <;> by_cases hn : "non-brand" ∈ c.brandFilter <;>
      · simp only [brandStage, List.elem_eq_mem, h0, hb, hn, decide_True, decide_False,
          Bool.not_true, Bool.not_false, Bool.and_true, Bool.and_false, Bool.true_and,
          Bool.false_and, Bool.and_self, if_true, if_false, Bool.false_eq_true]
        first
        | exact (filter_pred_id l _ (fun a => by simp [brandPred, h0, hb, hn])).symm
        | exact List.filter_congr (fun a _ => by simp [brandPred, h0, hb, hn])

theorem searchTypeStage_eq (c : Criteria) (l : List Keyword) :
    searchTypeStage c l = l.filter (searchTypePred c) := by
  by_cases h : "all" ∈ c.searchTypeFilter
  · simp only [searchTypeStage, List.elem_eq_mem, h, decide_True, if_true]
    exact (filter_pred_id l _ (fun a => by simp [searchTypePred, h])).symm
  · simp only [searchTypeStage, List.elem_eq_mem, h, decide_False, if_false,
      Bool.false_eq_true]
    exact List.filter_congr (fun a _ => by simp [searchTypePred, h])

theorem competitionStage_eq (c : Criteria) (l : List Keyword) :
    competitionStage c l = l.filter (competitionPred c) := by
  by_cases h : "all" ∈ c.competitionFilter
  · simp only [competitionStage, List.elem_eq_mem, h, decide_True, if_true]
    exact (filter_pred_id l _ (fun a => by simp [competitionPred, h])).symm
  · simp only [competitionStage, List.elem_eq_mem, h, decide_False, if_false,
      Bool.false_eq_true]
    exact List.filter_congr (fun a _ => by simp [competitionPred, h])

theorem genderStage_eq (c : Criteria) (l : List Keyword) : genderStage c l = l := by
  simp [genderStage]

theorem ageStage_eq (c : Criteria) (l : List Keyword) : ageStage c l = l := by
  simp [ageStage]

theorem monthStage_eq (c : Criteria) (l : List Keyword) : monthStage c l = l := by
  simp [monthStage]

theorem increaseStage_eq (c : Criteria) (l : List Keyword) : increaseStage c l = l := by
  simp [increaseStage]

theorem applyFilters_eq_filter (c : Criteria) (ks : List Keyword) :
    applyFilters c ks = ks.filter (matchesCriteria c) := by
  unfold applyFilters
  rw [increaseStage_eq, monthStage_eq, ageStage_eq, genderStage_eq,
    textStage_eq, volumeStage_eq, brandStage_eq, searchTypeStage_eq, competitionStage_eq]
  simp only [List.filter_filter]
  apply List.filter_congr
  intro a _
  cases h1 : textPred c a <;> cases h2 : volumePred c a <;> cases h3 : brandPred c a <;>
    cases h4 : searchTypePred c a <;> cases h5 : competitionPred c a <;>
      simp [matchesCriteria, h1, h2, h3, h4, h5]

theorem jlt_irrefl (v : JsVal) : jlt v v = false := by
  cases v with
  | num n => simp [jlt]
  | str s => simp [jlt]
  | boolean b => cases b <;> rfl
  | undef => rfl

theorem jlt_asymm {v w : JsVal} (h : jlt v w = true) : jlt w v = false := by
  cases v <;> cases w <;> simp [jlt] at h ⊢
  · omega
  · exact le_of_lt h
  · rcases h with ⟨h1, h2⟩
    subst h1
    subst h2
    simp

theorem keyVal_negTrans (k : SortKey) (a b c : Keyword)
    (h : jlt (keyVal k a) (keyVal k c) = true) :
    jlt (keyVal k a) (keyVal k b) = true ∨ jlt (keyVal k b) (keyVal k c) = true := by
  have natCase : ∀ x y z : Nat, x < z → x < y ∨ y < z := by omega
  have strCase : ∀ x y z : String, x < z → x < y ∨ y < z := by
    intro x y z hxz
    by_cases hxy : x < y
    · exact Or.inl hxy
    · exact Or.inr (lt_of_le_of_lt (not_lt.mp hxy) hxz)
  have boolCase : ∀ x y z : Bool, (!x && z) = true → (!x && y) = true ∨ (!y && z) = true := by
    decide
  cases k <;> simp only [keyVal, jlt, decide_eq_true_eq] at h ⊢
  case name => exact strCase _ _ _ h
  case searchVolume => exact natCase _ _ _ h
  case productCount => exact natCase _ _ _ h
  case competitionLevel => exact strCase _ _ _ h
  case avgPrice => simp [jlt] at h
  case gender => simp [jlt] at h
  case isBrand => exact boolCase _ _ _ h
  case searchType => exact strCase _ _ _ h

theorem leFn_total (spec : SortSpec) (a b : Keyword) :
    (leFn spec a b || leFn spec b a) = true := by
  unfold leFn jsCompare
  cases h1 : jlt (keyVal spec.key a) (keyVal spec.key b) <;>
    cases h2 : jlt (keyVal spec.key b) (keyVal spec.key a) <;>
      cases spec.direction <;> simp [h1, h2]
  all_goals
    simp [jlt_asymm h1] at h2

theorem leFn_asc (spec : SortSpec) (a b : Keyword) (hd : spec.direction = SortDir.asc) :
    leFn spec a b = !(jlt (keyVal spec.key b) (keyVal spec.key a)) := by
  unfold leFn jsCompare
  cases h1 : jlt (keyVal spec.key a) (keyVal spec.key b) <;>
    cases h2 : jlt (keyVal spec.key b) (keyVal spec.key a) <;> simp [h1, h2, hd]
  simp [jlt_asymm h1] at h2

theorem leFn_desc (spec : SortSpec) (a b : Keyword) (hd : spec.direction = SortDir.desc) :
    leFn spec a b = !(jlt (keyVal spec.key a) (keyVal spec.key b)) := by
  unfold leFn jsCompare
  cases h1 : jlt (keyVal spec.key a) (keyVal spec.key b) <;>
    cases h2 : jlt (keyVal spec.key b) (keyVal spec.key a) <;> simp [h1, h2, hd]

theorem leFn_trans (spec : SortSpec) (a b c : Keyword)
    (hab : leFn spec a b = true) (hbc : leFn spec b c = true) :
    leFn spec a c = true := by
  cases hd : spec.direction
  case asc =>
    rw [leFn_asc spec a b hd] at hab
    rw [leFn_asc spec b c hd] at hbc
    rw [leFn_asc spec a c hd]
    simp only [Bool.not_eq_eq_eq_not, Bool.not_true] at hab hbc ⊢
    cases h : jlt (keyVal spec.key c) (keyVal spec.key a)
    · rfl
    · rcases keyVal_negTrans spec.key c b a h with h3 | h3
      · simp [hbc] at h3
      · simp [hab] at h3
  case desc =>
    rw [leFn_desc spec a b hd] at hab
    rw [leFn_desc spec b c hd] at hbc
    rw [leFn_desc spec a c hd]
    simp only [Bool.not_eq_eq_eq_not, Bool.not_true] at hab hbc ⊢
    cases h : jlt (keyVal spec.key a) (keyVal spec.key c)
    · rfl
    · rcases keyVal_negTrans spec.key a b c h with h3 | h3
      · simp [hab] at h3
      · simp [hbc] at h3

theorem leFn_of_keyVal_eq (spec : SortSpec) (a b : Keyword)
    (h : keyVal spec.key a = keyVal spec.key b) : leFn spec a b = true := by
  unfold leFn jsCompare
  rw [h, jlt_irrefl]
  simp

theorem step_visible_ge (st : EngineState) (e : Event)
    (h : 30 ≤ st.visibleKeywords) : 30 ≤ (step st e).visibleKeywords := by
  cases e
  case scrollLoadMore =>
    simp only [step, loadMoreCount]
    split <;> omega
  all_goals exact h

theorem foldl_visible_ge (evs : List Event) (st : EngineState)
    (h : 30 ≤ st.visibleKeywords) : 30 ≤ (evs.foldl step st).visibleKeywords := by
  induction evs generalizing st with
  | nil => exact h
  | cons e rest ih => exact ih (step st e) (step_visible_ge st e h)

/-- The well-formedness invariant of an inclusion set: never empty, and
the "all" sentinel only ever appears alone. -/
def goodSet (s : List String) : Prop :=
  s ≠ [] ∧ ("all" ∈ s → s = ["all"])

theorem goodSet_all : goodSet ["all"] :=
  ⟨List.cons_ne_nil _ _, fun _ => rfl⟩

theorem mem_of_mem_filter_ne {s : List String} {v a : String}
    (h : a ∈ s.filter (fun item => item != v)) : a ∈ s :=
  List.mem_of_mem_filter h

theorem not_all_mem_filter_ne_all {s : List String} :
    "all" ∉ s.filter (fun item => item != "all") := by
  intro h
  have := List.of_mem_filter h
  simp at this

theorem toggle_good {s : List String} (v : String) (hg : goodSet s) :
    goodSet (toggleFilterValue s v) := by
  unfold toggleFilterValue
  by_cases hv : v = "all"
  · simp only [hv, if_true]
    exact goodSet_all
  · simp only [hv, if_false]
    cases hc : s.contains v
    · simp only [hc, Bool.false_eq_true, if_false]
      have hne : (s.filter (fun item => item != "all") ++ [v]).isEmpty = false := by
        simp
      simp only [hne, Bool.false_eq_true, if_false]
      refine ⟨by simp, ?_⟩
      intro hmem
      rcases List.mem_append.mp hmem with h1 | h1
      · exact absurd h1 not_all_mem_filter_ne_all
      · simp at h1
        exact absurd h1.symm hv
    · simp only [hc, if_true]
      have hvs : v ∈ s := by
        have h2 : List.elem v s = true := hc
        rw [List.elem_eq_mem] at h2
        exact of_decide_eq_true h2
      have hnoall : "all" ∉ s := by
        intro hmem
        have hs := hg.2 hmem
        rw [hs] at hvs
        simp at hvs
        exact hv hvs
      cases he : (s.filter (fun item => item != v)).isEmpty
      · simp only [he, Bool.false_eq_true, if_false]
        refine ⟨by simpa using he, ?_⟩
        intro hmem
        exact absurd (mem_of_mem_filter_ne hmem) hnoall
      · simp only [he, if_true]
        exact goodSet_all

/-- Well-formedness of the three sentinel inclusion sets of a state. -/
def goodSets (st : EngineState) : Prop :=
  goodSet st.criteria.brandFilter
    ∧ goodSet st.criteria.searchTypeFilter
    ∧ goodSet st.criteria.competitionFilter

theorem step_goodSets (st : EngineState) (e : Event) (h : goodSets st) :
    goodSets (step st e) := by
  obtain ⟨h1, h2, h3⟩ := h
  cases e
  case brandToggle v => exact ⟨toggle_good v h1, h2, h3⟩
  case searchTypeToggle v => exact ⟨h1, toggle_good v h2, h3⟩
  case competitionToggle v => exact ⟨h1, h2, toggle_good v h3⟩
  case resetFiltersEv => exact ⟨goodSet_all, goodSet_all, goodSet_all⟩
  all_goals exact ⟨h1, h2, h3⟩

theorem foldl_goodSets (evs : List Event) (st : EngineState) (h : goodSets st) :
    goodSets (evs.foldl step st) := by
  induction evs generalizing st with
  | nil => exact h
  | cons e rest ih => exact ih (step st e) (step_goodSets st e h)

theorem toggle_all_eq (s : List String) : toggleFilterValue s "all" = ["all"] := by
  simp [toggleFilterValue]

theorem toggle_specific_no_all {s : List String} {v : String}
    (hv : v ≠ "all") (hg : goodSet s) :
    toggleFilterValue s v = ["all"] ∨ "all" ∉ toggleFilterValue s v := by
  unfold toggleFilterValue
  simp only [hv, if_false]
  cases hc : s.contains v
  · simp only [hc, Bool.false_eq_true, if_false]
    have hne : (s.filter (fun item => item != "all") ++ [v]).isEmpty = false := by
      simp
    simp only [hne, Bool.false_eq_true, if_false]
    right
    intro hmem
    rcases List.mem_append.mp hmem with hcase | hcase
    · exact absurd hcase not_all_mem_filter_ne_all
    · simp at hcase
      exact absurd hcase.symm hv
  · simp only [hc, if_true]
    have hvs : v ∈ s := by
      have hcc : List.elem v s = true := hc
      rw [List.elem_eq_mem] at hcc
      exact of_decide_eq_true hcc
    have hnoall : "all" ∉ s := by
      intro hmem
      have hs := hg.2 hmem
      rw [hs] at hvs
      simp at hvs
      exact hv hvs
    cases he : (s.filter (fun item => item != v)).isEmpty
    · simp only [he, Bool.false_eq_true, if_false]
      right
      intro hmem
      exact absurd (mem_of_mem_filter_ne hmem) hnoall
    · simp only [he, if_true]
      left
      trivial

theorem toggle_last_specific_reverts {s : List String} {v : String}
    (hv : v ≠ "all") (hc : s.contains v = true)
    (he : s.filter (fun item => item != v) = []) :
    toggleFilterValue s v = ["all"] := by
  have hvs : v ∈ s := by
    have hcc : List.elem v s = true := hc
    rw [List.elem_eq_mem] at hcc
    exact of_decide_eq_true hcc
  simp [toggleFilterValue, hv, hvs, he]

/-- Sample keyword record used for concrete instantiations. -/
def kwA : Keyword :=
  { id := "a"
    name := "alpha"
    searchVolume := 100
    productCount := 1
    competitionLevel := .low
    trendData := [0, 0, 0, 0, 0, 0, 0, 0, 0, 0, 0, 0]
    isBrand := false
    searchType := .shopping }

/-- Second sample record, equal search volume to kwA. -/
def kwB : Keyword :=
  { id := "b"
    name := "beta"
    searchVolume := 100
    productCount := 2
    competitionLevel := .medium
    trendData := [1, 1, 1, 1, 1, 1, 1, 1, 1, 1, 1, 1]
    isBrand := true
    searchType := .informational }

/-- Sample record whose name is the two characters ab. -/
def kwAb : Keyword :=
  { id := "k1"
    name := "ab"
    searchVolume := 1000
    productCount := 10
    competitionLevel := .high
    trendData := [0, 0, 0, 0, 0, 0, 0, 0, 0, 0, 0, 0]
    isBrand := false
    searchType := .shopping }

/-- Criteria with only the text term active. -/
def textOnlyCriteria (term : String) : Criteria :=
  { initCriteria with searchTerm := term }

/-- Criteria in custom volume-range mode with the given min and max
strings. -/
def customVolumeCriteria (mn mx : String) : Criteria :=
  { initCriteria with
      searchVolumeFilter := "custom"
      minSearchVolume := mn
      maxSearchVolume := mx }

/-- Modelled from the spec: the text predicate as the spec sentence
states it, keeping records whose display text contains the trimmed,
lower-cased search term, with an empty (trimmed) term imposing no
constraint. Stated only for comparison against the code's textStage. -/
def specTextKeep (term : String) (k : Keyword) : Bool :=
  if jsTrim term = "" then true
  else jsIncludes (toLowerStr k.name) (toLowerStr (jsTrim term))

/-- C1: for every dataset and criteria, the filtered result is exactly
the records satisfying the conjunction of the active predicates: it
equals a single filter by matchesCriteria, every member satisfies all
predicates, every satisfying record keeps its multiplicity (so a record
occurring once appears exactly once), and the result is a sublist of
the dataset, preserving the original relative order. -/
theorem filter_sound_complete_ordered (D : List Keyword) (c : Criteria) :
    applyFilters c D = D.filter (matchesCriteria c)
    ∧ (∀ k, k ∈ applyFilters c D → matchesCriteria c k = true)
    ∧ (∀ k, matchesCriteria c k = true → (applyFilters c D).count k = D.count k)
    ∧ List.Sublist (applyFilters c D) D := by
  refine ⟨applyFilters_eq_filter c D, ?_, ?_, ?_⟩
  · intro k hk
    rw [applyFilters_eq_filter] at hk
    exact (List.mem_filter.mp hk).2
  · intro k hk
    rw [applyFilters_eq_filter]
    exact List.count_filter hk
  · rw [applyFilters_eq_filter]
    exact List.filter_sublist D

/-- Witness for C1 at a concrete record and the default criteria. -/
theorem filter_sound_complete_ordered_witness :
    matchesCriteria initCriteria kwA = true
    ∧ (applyFilters initCriteria [kwA]).count kwA = List.count kwA [kwA] :=
  ⟨by decide, (filter_sound_complete_ordered [kwA] initCriteria).2.2.1 kwA (by decide)⟩

/-- C3 counterexample: with the search term "b " (trailing space), the
spec's trimmed predicate keeps the record named "ab", but the code's
untrimmed filter drops it, so the text filter does not match on the
trimmed term. -/
theorem text_filter_not_trimmed_cx :
    specTextKeep "b " kwAb = true
    ∧ applyFilters (textOnlyCriteria "b ") [kwAb] = [] := by
  constructor
  · decide
  · decide

/-- C3 amended: the text filter keeps exactly the records whose
lower-cased display text contains the lower-cased search term as is,
without trimming; an empty term imposes no constraint. -/
theorem text_filter_untrimmed_semantics (term : String) (D : List Keyword) :
    applyFilters (textOnlyCriteria term) D
      = D.filter (fun k =>
          if term = "" then true
          else jsIncludes (toLowerStr k.name) (toLowerStr term)) := by
  rw [applyFilters_eq_filter]
  apply List.filter_congr
  intro a _
  by_cases h : term = "" <;>
    simp [matchesCriteria, textPred, volumePred, brandPred, searchTypePred,
      competitionPred, textOnlyCriteria, initCriteria, h]

/-- C4 counterexample: in custom volume mode the malformed min bound
"abc" parses to NaN, and the NaN comparison excludes every record, so
the result is empty instead of equal to the result with the bound
absent. -/
theorem malformed_bound_not_ignored_cx :
    parseIntJS "abc" = none
    ∧ applyFilters (customVolumeCriteria "abc" "") [kwAb] = []
    ∧ applyFilters (customVolumeCriteria "" "") [kwAb] = [kwAb] := by
  refine ⟨by decide, by decide, by decide⟩

/-- C4 amended: in custom volume-range mode, a non-empty min or max
string with no parsable number (parseInt yields NaN) makes the
corresponding comparison false for every record, so the filtered result
is empty; only the empty string behaves as a bound that is not set. -/
theorem malformed_bound_empties_result (c : Criteria) (D : List Keyword)
    (hc : c.searchVolumeFilter = "custom")
    (h : (c.minSearchVolume ≠ "" ∧ parseIntJS c.minSearchVolume = none)
        ∨ (c.maxSearchVolume ≠ "" ∧ parseIntJS c.maxSearchVolume = none)) :
    applyFilters c D = [] := by
  rw [applyFilters_eq_filter]
  rw [List.filter_eq_nil_iff]
  intro a _
  have hvol : volumePred c a = false := by
    rcases h with ⟨hne, hp⟩ | ⟨hne, hp⟩
    · simp [volumePred, hc, hne, hp, natGeJs]
    · simp [volumePred, hc, hne, hp, natLeJs]
  simp [matchesCriteria, hvol]

/-- Witness for C4 amended at the malformed min bound "xy". -/
theorem malformed_bound_empties_result_witness :
    applyFilters (customVolumeCriteria "xy" "") [kwAb] = [] :=
  malformed_bound_empties_result (customVolumeCriteria "xy" "") [kwAb] rfl
    (Or.inl ⟨by decide, by decide⟩)

/-- C10: recomputing the view with any values of the gender, age,
best-selling-month and search-volume-increase filter states yields the
same filtered and sorted view: those dimensions are no-op placeholders. -/
theorem mock_filters_no_effect (ks : List Keyword) (c : Criteria)
    (cfg : Option SortSpec) (g : String) (a : List String) (m i cu : String) :
    computeView ks
      { c with
          genderFilter := g
          ageFilter := a
          bestSellingMonthFilter := m
          searchVolumeIncreaseFilter := i
          customSearchVolumeIncrease := cu } cfg
      = computeView ks c cfg := by
  unfold computeView applyFilters
  rw [increaseStage_eq, monthStage_eq, ageStage_eq, genderStage_eq,
    increaseStage_eq, monthStage_eq, ageStage_eq, genderStage_eq]
  rfl

/-- C7: for every record sequence and sort specification, the sort is a
permutation of its input, reapplying the same sort is the identity on
its output, and two records with equal key values keep their relative
input order (stability). -/
theorem sort_perm_idem_stable (S : List Keyword) (spec : SortSpec) :
    (sortApply S (some spec)).Perm S
    ∧ sortApply (sortApply S (some spec)) (some spec) = sortApply S (some spec)
    ∧ (∀ a b, keyVal spec.key a = keyVal spec.key b →
        List.Sublist [a, b] S → List.Sublist [a, b] (sortApply S (some spec))) := by
  refine ⟨List.mergeSort_perm S (leFn spec), ?_, ?_⟩
  · exact List.mergeSort_of_sorted
      (List.sorted_mergeSort (leFn_trans spec) (leFn_total spec) S)
  · intro a b hkey hsub
    exact List.pair_sublist_mergeSort (leFn_trans spec) (leFn_total spec)
      (leFn_of_keyVal_eq spec a b hkey) hsub

/-- Witness for C7: two records with equal search volume stay in input
order under the default descending search-volume sort. -/
theorem sort_perm_idem_stable_witness :
    List.Sublist [kwA, kwB]
      (sortApply [kwA, kwB] (some { key := SortKey.searchVolume, direction := SortDir.desc })) :=
  (sort_perm_idem_stable [kwA, kwB] { key := SortKey.searchVolume, direction := SortDir.desc }).2.2
    kwA kwB (by decide) (List.Sublist.refl _)

/-- C2 counterexample: after the dataset loads 31 records, a scroll
grows visible-count to 31, and a subsequent search-term change (a
Filter Criteria Set change) leaves visible-count at 31 instead of
resetting it to the initial page size 30. -/
theorem filter_change_does_not_reset_pagination_cx :
    isCriteriaOrSortEvent (Event.setSearchTerm "zz") = true
    ∧ (run [Event.loadComplete (List.replicate 31 kwA), Event.scrollLoadMore,
        Event.setSearchTerm "zz"]).visibleKeywords = 31 := by
  refine ⟨rfl, ?_⟩
  have h1 : (step initState (Event.loadComplete (List.replicate 31 kwA))).filteredKeywords.length = 31 := by
    show (computeView (List.replicate 31 kwA) initCriteria
      (some { key := SortKey.searchVolume, direction := SortDir.desc })).length = 31
    unfold computeView
    have h2 : applyFilters initCriteria (List.replicate 31 kwA) = List.replicate 31 kwA := rfl
    rw [h2]
    show (List.mergeSort (List.replicate 31 kwA) _).length = 31
    rw [List.length_mergeSort]
    simp
  show (step (step initState (Event.loadComplete (List.replicate 31 kwA)))
    Event.scrollLoadMore).visibleKeywords = 31
  show loadMoreCount 30
    (step initState (Event.loadComplete (List.replicate 31 kwA))).filteredKeywords.length = 31
  rw [h1]
  decide

/-- C2 amended: a change to the Filter Criteria Set or the Sort
Specification leaves the pagination visible-count unchanged; no event
resets it to the initial page size. -/
theorem criteria_or_sort_event_preserves_visible (st : EngineState) (e : Event)
    (h : isCriteriaOrSortEvent e = true) :
    (step st e).visibleKeywords = st.visibleKeywords := by
  cases e <;> first | rfl | simp [isCriteriaOrSortEvent] at h

/-- Witness for C2 amended at a concrete sort event. -/
theorem criteria_or_sort_event_preserves_visible_witness :
    (step initState (Event.sortBy SortKey.name)).visibleKeywords
      = initState.visibleKeywords :=
  criteria_or_sort_event_preserves_visible initState (Event.sortBy SortKey.name) rfl

/-- C5 counterexample: already at mount (the empty event sequence) the
visible-count 30 exceeds the total of 0 filtered records, violating the
claimed upper bound. -/
theorem visible_count_exceeds_total_cx :
    ¬ ((run []).visibleKeywords ≤ (run []).filteredKeywords.length) := by
  decide

/-- C5 amended: in every reachable state the visible-count is at least
the initial page size 30 (hence non-negative), and the rendered
visible slice never exceeds the filtered total; the upper bound
visible-count at most total-available does not hold in general. -/
theorem reachable_visible_bounds (evs : List Event) :
    30 ≤ (run evs).visibleKeywords
    ∧ ((run evs).filteredKeywords.take (run evs).visibleKeywords).length
        ≤ (run evs).filteredKeywords.length := by
  constructor
  · exact foldl_visible_ge evs initState (by decide)
  · rw [List.length_take]
    exact Nat.min_le_right _ _

/-- C6 counterexample: with visible-count 30 and a filtered total of 3,
the guarded loadMore is a no-op even though visible-count differs from
the total, contradicting the claim that it strictly increases whenever
the two are unequal. -/
theorem loadMore_not_strict_increase_cx :
    loadMoreCount 30 3 = 30 ∧ (30 : Nat) ≠ 3 := by
  decide

/-- C6 amended: the visible slice has length min of visible-count and
the total; loadMore strictly increases the visible-count to
min (count + 20) total exactly when the count is below the total, and
is a no-op whenever the count is at or above the total. -/
theorem visible_slice_length_loadMore (view : List Keyword) (vc : Nat) :
    (visibleSlice view vc).length = min vc view.length
    ∧ (vc < view.length →
        loadMoreCount vc view.length = min (vc + 20) view.length
        ∧ vc < loadMoreCount vc view.length)
    ∧ (view.length ≤ vc → loadMoreCount vc view.length = vc) := by
  refine ⟨by simp [visibleSlice], ?_, ?_⟩
  · intro h
    unfold loadMoreCount
    rw [if_pos h]
    exact ⟨rfl, by omega⟩
  · intro h
    unfold loadMoreCount
    rw [if_neg (by omega)]

/-- Witness for C6 amended: growing from 0 over a one-record view. -/
theorem visible_slice_length_loadMore_witness :
    loadMoreCount 0 (List.length [kwA]) = min (0 + 20) (List.length [kwA])
    ∧ 0 < loadMoreCount 0 (List.length [kwA]) :=
  (visible_slice_length_loadMore [kwA] 0).2.1 (by decide)

/-- C8: in every reachable state the three sentinel inclusion sets are
never empty and never pair "all" with a specific value; toggling "all"
yields exactly the sentinel set, toggling a specific value either
reverts to the sentinel set (when it was the last selection) or
produces a set without "all", and deselecting the last specific value
reverts to the sentinel set. -/
theorem inclusion_set_invariant (evs : List Event) :
    goodSet (run evs).criteria.brandFilter
    ∧ goodSet (run evs).criteria.searchTypeFilter
    ∧ goodSet (run evs).criteria.competitionFilter
    ∧ (∀ s : List String, toggleFilterValue s "all" = ["all"])
    ∧ (∀ s : List String, ∀ v : String, v ≠ "all" → goodSet s →
        toggleFilterValue s v = ["all"] ∨ "all" ∉ toggleFilterValue s v)
    ∧ (∀ s : List String, ∀ v : String, v ≠ "all" → s.contains v = true →
        s.filter (fun item => item != v) = [] → toggleFilterValue s v = ["all"]) := by
  have hrun := foldl_goodSets evs initState ⟨goodSet_all, goodSet_all, goodSet_all⟩
  exact ⟨hrun.1, hrun.2.1, hrun.2.2, toggle_all_eq,
    fun s v hv hg => toggle_specific_no_all hv hg,
    fun s v hv hc he => toggle_last_specific_reverts hv hc he⟩

/-- Witness for C8: one brand toggle from the initial state, and the
deselection of the last specific value reverting to the sentinel. -/
theorem inclusion_set_invariant_witness :
    goodSet (run [Event.brandToggle "brand"]).criteria.brandFilter
    ∧ toggleFilterValue ["brand"] "brand" = ["all"] :=
  ⟨(inclusion_set_invariant [Event.brandToggle "brand"]).1,
    (inclusion_set_invariant []).2.2.2.2.2 ["brand"] "brand" (by decide) (by decide)
      (by decide)⟩

/-- C9: both pending loads carry the same fixed 800 delay, so the JS
timer queue fires them in registration order and the load that started
later installs its dataset last: after both complete, the dataset is
the newer load's result, and a stale load can never end up as the
final dataset. -/
theorem stale_load_last_write_wins (st : EngineState) (A B : PendingLoad)
    (h : A.scheduledAt < B.scheduledAt) :
    (runTimers st [A, B]).keywords = B.dataset := by
  unfold runTimers
  have hs : List.mergeSort [A, B] (fun a b => decide (fireTime a ≤ fireTime b)) = [A, B] := by
    apply List.mergeSort_of_sorted
    apply List.pairwise_pair.mpr
    simp only [decide_eq_true_eq, fireTime]
    omega
  rw [hs]
  rfl

/-- Witness for C9 at two concrete overlapping loads. -/
theorem stale_load_last_write_wins_witness :
    (0 : Nat) < 5
    ∧ (runTimers initState
        [{ scheduledAt := 0, dataset := [kwA] },
         { scheduledAt := 5, dataset := [kwB] }]).keywords = [kwB] :=
  ⟨by decide,
    stale_load_last_write_wins initState
      { scheduledAt := 0, dataset := [kwA] }
      { scheduledAt := 5, dataset := [kwB] } (by decide)⟩

end ItemSourcing
